import Mathlib

set_option maxRecDepth 1000000

/-!
Shallow embedding of `parseiso.py` (a read-only ISO9660 reader) and proofs
about it.  Bytes are modelled as `Nat` values (each below 256 in real images),
byte strings as `List Nat`, Python exceptions as an explicit error type, and
the file object as the full list of image bytes together with an explicit
trace of seek/read operations.  Python general recursion (the mutually
recursive `TreeWalker` methods) is modelled with an explicit fuel parameter;
running out of fuel corresponds to a Python `RecursionError` and never
happens at the fuel chosen by the top-level wrappers.
-/

deriving instance DecidableEq for Except

namespace ParseIso

/-- The exceptions the Python code can raise: `FormatError` (defined in the
module), the builtin `ValueError` raised by the `enum` conversion,
`struct.error` from `struct.unpack`, `KeyError`/`IndexError` from mapping and
sequence indexing, the `OSError` subclasses raised by the tree walker, and a
marker for fuel exhaustion (Python `RecursionError`). -/
inductive PError where
  | format (msg : String)
  | valueError (v : Nat)
  | structError
  | keyError
  | indexError
  | fileNotFound (msg : String)
  | notADirectory (msg : String)
  | isADirectory (msg : String)
  | outOfFuel
deriving DecidableEq

/-- Read one byte (out of range reads 0; real decoding paths guard lengths
first, mirroring `struct.unpack` length requirements). -/
def u8 (bs : List Nat) (i : Nat) : Nat := bs.getD i 0

/-- Little-endian 16-bit unsigned read, as `struct.unpack` with format H. -/
def u16le (bs : List Nat) (i : Nat) : Nat := u8 bs i + 256 * u8 bs (i + 1)

/-- Little-endian 32-bit unsigned read, as `struct.unpack` with format I. -/
def u32le (bs : List Nat) (i : Nat) : Nat :=
  u8 bs i + 256 * u8 bs (i + 1) + 65536 * u8 bs (i + 2) + 16777216 * u8 bs (i + 3)

/-- The slice `bs[i:i+n]`. -/
def bytesAt (bs : List Nat) (i n : Nat) : List Nat := (bs.drop i).take n

/-- Decide `len(l) = n` by walking the list; tail recursive so that the
kernel evaluates it on 2048-byte blocks with constant stack. -/
def lengthIs : List Nat → Nat → Bool
  | [], 0 => true
  | [], _ + 1 => false
  | _ :: _, 0 => false
  | _ :: tl, n + 1 => lengthIs tl n

/-- Decide `n <= len(l)`; tail recursive. -/
def lengthAtLeast : List Nat → Nat → Bool
  | _, 0 => true
  | [], _ + 1 => false
  | _ :: tl, n + 1 => lengthAtLeast tl n

/-- Tail-recursive list length with an accumulator that is forced to a
literal at every step, so the kernel computes it iteratively. -/
def lenTR : List Nat → Nat → Nat
  | [], acc => acc
  | _ :: tl, 0 => lenTR tl 1
  | _ :: tl, n + 1 => lenTR tl (n + 1 + 1)

/-- `len(l)` evaluated iteratively. -/
def listLength (l : List Nat) : Nat := lenTR l 0

/-- `struct.unpack` of format >H applied to `struct.pack` of format <H:
swap the two bytes of a 16-bit value. -/
def swap16 (v : Nat) : Nat := v % 256 * 256 + v / 256 % 256

/-- `struct.unpack` of format >I applied to `struct.pack` of format <I:
reverse the four bytes of a 32-bit value. -/
def swap32 (v : Nat) : Nat :=
  v % 256 * 16777216 + v / 256 % 256 * 65536 + v / 65536 % 256 * 256 + v / 16777216 % 256

/-- `check_byteswapped` (parseiso.py lines 190-195): the byte-order duplicate
field must agree with the base field after byte-order conversion.  The
`getattr` genericity of the Python code becomes explicit arguments. -/
def check_byteswapped (fieldname : String) (value byteswapped : Nat)
    (swap : Nat → Nat) : Except PError Unit :=
  let b := swap byteswapped
  if value ≠ b then
    .error (.format (fieldname ++ " mismatch: " ++ toString value ++ " != " ++ toString b))
  else .ok ()

/-- `check_u32` (parseiso.py lines 182-183). -/
def check_u32 (fieldname : String) (value byteswapped : Nat) : Except PError Unit :=
  check_byteswapped fieldname value byteswapped swap32

/-- `check_u16` (parseiso.py lines 186-187). -/
def check_u16 (fieldname : String) (value byteswapped : Nat) : Except PError Unit :=
  check_byteswapped fieldname value byteswapped swap16

/-- The `DirectoryRecord` named tuple (parseiso.py lines 198-231).  The
Python `None` placeholders never escape `from_bytes`, so the three variable
slices are plain lists here. -/
structure DirectoryRecord where
  record_size : Nat
  extended_attribute_record_size : Nat
  first_sector : Nat
  first_sector_byteswapped : Nat
  file_size : Nat
  file_size_byteswapped : Nat
  years_since_1900 : Nat
  month : Nat
  day : Nat
  hour : Nat
  minute : Nat
  second : Nat
  utc_offset : Nat
  flags : Nat
  interleaved_file_unit_size : Nat
  interleave_gap_size : Nat
  volume_sequence_number : Nat
  volume_sequence_number_byteswapped : Nat
  identifier_length : Nat
  identifier : List Nat
  padding : List Nat
  extra : List Nat
deriving DecidableEq

/-- The `name` property: identifiers 0x00 and 0x01 denote self and parent;
anything else is decoded as ASCII with U+FFFD replacing non-ASCII bytes. -/
def DirectoryRecord.name (d : DirectoryRecord) : String :=
  if d.identifier = [0] then "."
  else if d.identifier = [1] then ".."
  else String.mk (d.identifier.map fun b => if b < 128 then Char.ofNat b else Char.ofNat 65533)

/-- The `is_directory` property: flags bit 1. -/
def DirectoryRecord.is_directory (d : DirectoryRecord) : Bool := d.flags &&& 2 ≠ 0

/-- The `has_extents` property: flags bit 7 (`NOT_FINAL`). -/
def DirectoryRecord.has_extents (d : DirectoryRecord) : Bool := d.flags &&& 128 ≠ 0

/-- `DirectoryRecord.from_bytes` (parseiso.py lines 249-266).  The fixed
prefix has `struct.calcsize` 33; `struct.unpack_from` demands at least that
many bytes.  A negative trailing length would make the Python format string
invalid, raising `struct.error`. -/
def DirectoryRecord.from_bytes (block : List Nat) : Except PError DirectoryRecord :=
  if block.length < 33 then .error .structError
  else
    let record_size := u8 block 0
    let extended_attribute_record_size := u8 block 1
    let first_sector := u32le block 2
    let first_sector_byteswapped := u32le block 6
    let file_size := u32le block 10
    let file_size_byteswapped := u32le block 14
    let volume_sequence_number := u16le block 28
    let volume_sequence_number_byteswapped := u16le block 30
    let identifier_length := u8 block 32
    if record_size ≠ block.length then
      .error (.format ("directory record size mismatch: " ++ toString record_size
        ++ " != " ++ toString block.length))
    else if extended_attribute_record_size ≠ 0 then
      .error (.format "bad extended attribute record size: \x7bd.check1\x7d")
    else match check_u32 "first_sector" first_sector first_sector_byteswapped with
    | .error e => .error e
    | .ok _ => match check_u32 "file_size" file_size file_size_byteswapped with
      | .error e => .error e
      | .ok _ => match check_u16 "volume_sequence_number" volume_sequence_number
          volume_sequence_number_byteswapped with
        | .error e => .error e
        | .ok _ =>
          let padding_length := 1 - identifier_length % 2
          if record_size < 33 + identifier_length + padding_length then .error .structError
          else .ok
            { record_size := record_size
              extended_attribute_record_size := extended_attribute_record_size
              first_sector := first_sector
              first_sector_byteswapped := first_sector_byteswapped
              file_size := file_size
              file_size_byteswapped := file_size_byteswapped
              years_since_1900 := u8 block 18
              month := u8 block 19
              day := u8 block 20
              hour := u8 block 21
              minute := u8 block 22
              second := u8 block 23
              utc_offset := u8 block 24
              flags := u8 block 25
              interleaved_file_unit_size := u8 block 26
              interleave_gap_size := u8 block 27
              volume_sequence_number := volume_sequence_number
              volume_sequence_number_byteswapped := volume_sequence_number_byteswapped
              identifier_length := identifier_length
              identifier := bytesAt block 33 identifier_length
              padding := bytesAt block (33 + identifier_length) padding_length
              extra := bytesAt block (33 + identifier_length + padding_length)
                (record_size - (33 + identifier_length + padding_length)) }

/-- One observable operation against the image file object. -/
inductive IOOp where
  | seek (pos : Nat)
  | read (n : Nat)
deriving DecidableEq

/-- `DirectoryRecord.read_from` (parseiso.py lines 268-275), returning the
result together with the seek/read operations performed against the file. -/
def DirectoryRecord.read_from (d : DirectoryRecord) (img : List Nat) :
    Except PError (List Nat) × List IOOp :=
  if d.file_size = 0 then (.ok [], [])
  else
    let pos := d.first_sector * 2048
    let data := (img.drop pos).take d.file_size
    let ops := [IOOp.seek pos, IOOp.read d.file_size]
    if data.length ≠ d.file_size then (.error (.format "file truncated"), ops)
    else (.ok data, ops)

/-- `parse_directory` (parseiso.py lines 281-288): decode records until a
zero size byte; indexing past the end of the data raises `IndexError`.  The
Python generator is consumed strictly by every caller in the module. -/
def parseDirectoryFuel : Nat → List Nat → Except PError (List DirectoryRecord)
  | _, [] => .error .indexError
  | 0, _ :: _ => .error .outOfFuel
  | fuel + 1, size :: tl =>
    if size = 0 then .ok []
    else
      match DirectoryRecord.from_bytes ((size :: tl).take size) with
      | .error e => .error e
      | .ok d =>
        match parseDirectoryFuel fuel ((size :: tl).drop size) with
        | .error e => .error e
        | .ok rest => .ok (d :: rest)

/-- `parse_directory` at its sufficient fuel: every decoded record consumes
at least one byte, so `data.length` steps always reach the zero marker, the
end of the data, or an error. -/
def parse_directory (data : List Nat) : Except PError (List DirectoryRecord) :=
  parseDirectoryFuel (listLength data) data

/-- The descriptor type enum (parseiso.py lines 48-53). -/
inductive VDType where
  | BOOT_RECORD
  | PRIMARY
  | SUPPLEMENTARY
  | PARTITION
  | TERMINATOR
deriving DecidableEq

/-- The enum conversion `VolumeDescriptor.Type(byte)`: any byte outside the
five declared values raises `ValueError`, not `FormatError`. -/
def VDType.ofByte (b : Nat) : Except PError VDType :=
  if b = 0 then .ok .BOOT_RECORD
  else if b = 1 then .ok .PRIMARY
  else if b = 2 then .ok .SUPPLEMENTARY
  else if b = 3 then .ok .PARTITION
  else if b = 255 then .ok .TERMINATOR
  else .error (.valueError b)

/-- The `VolumeDescriptor` named tuple (parseiso.py lines 46-61). -/
structure VolumeDescriptor where
  dtype : VDType
  identifier : List Nat
  version : Nat
  data : List Nat
deriving DecidableEq

/-- The bytes of the magic b'CD001'. -/
def cd001 : List Nat := [67, 68, 48, 48, 49]

/-- The `PrimaryVolumeDescriptor` named tuple (parseiso.py lines 92-153):
the three header fields plus the fields of the 2041-byte payload in the
order and widths of the `struct` FORMAT string
<B32s32s8sII32sHHHHHHIIIIII34s128s128s128s128s37s37s37s17s17s17s17sBB512s653s
(the spelling `volume_set_idenifier` is the spelling of the source). -/
structure PrimaryVolumeDescriptor where
  dtype : VDType
  identifier : List Nat
  version : Nat
  reserved1 : Nat
  system_identifier : List Nat
  volume_identifier : List Nat
  reserved2 : List Nat
  number_of_sectors : Nat
  number_of_sectors_byteswapped : Nat
  reserved3 : List Nat
  volume_set_size : Nat
  volume_set_size_byteswapped : Nat
  volume_sequence_number : Nat
  volume_sequence_number_byteswapped : Nat
  sector_size : Nat
  sector_size_byteswapped : Nat
  path_table_length : Nat
  path_table_length_byteswapped : Nat
  first_sector_in_first_le_path_table : Nat
  first_sector_in_second_le_path_table : Nat
  first_sector_in_first_be_path_table_byteswapped : Nat
  first_sector_in_second_be_path_table_byteswapped : Nat
  root_directory_record : List Nat
  volume_set_idenifier : List Nat
  publisher_identifier : List Nat
  data_preparer_identifier : List Nat
  application_identifier : List Nat
  copyright_file_identifier : List Nat
  abstract_file_identifier : List Nat
  bibliographical_file_identifier : List Nat
  date_and_time_of_volume_creation : List Nat
  date_and_time_of_most_recent_modification : List Nat
  date_and_time_when_volume_expires : List Nat
  date_and_time_when_volume_is_effective : List Nat
  check1 : Nat
  check0 : Nat
  reserved4 : List Nat
  reserved5 : List Nat
deriving DecidableEq

/-- `struct.unpack` of the FORMAT string over the 2041-byte payload, at the
fixed offsets determined by the format (a payload of any other length makes
`struct.unpack` raise `struct.error`). -/
def unpackPVD (vd : VolumeDescriptor) : Except PError PrimaryVolumeDescriptor :=
  let data := vd.data
  if lengthIs data 2041 = false then .error .structError
  else .ok
    { dtype := vd.dtype
      identifier := vd.identifier
      version := vd.version
      reserved1 := u8 data 0
      system_identifier := bytesAt data 1 32
      volume_identifier := bytesAt data 33 32
      reserved2 := bytesAt data 65 8
      number_of_sectors := u32le data 73
      number_of_sectors_byteswapped := u32le data 77
      reserved3 := bytesAt data 81 32
      volume_set_size := u16le data 113
      volume_set_size_byteswapped := u16le data 115
      volume_sequence_number := u16le data 117
      volume_sequence_number_byteswapped := u16le data 119
      sector_size := u16le data 121
      sector_size_byteswapped := u16le data 123
      path_table_length := u32le data 125
      path_table_length_byteswapped := u32le data 129
      first_sector_in_first_le_path_table := u32le data 133
      first_sector_in_second_le_path_table := u32le data 137
      first_sector_in_first_be_path_table_byteswapped := u32le data 141
      first_sector_in_second_be_path_table_byteswapped := u32le data 145
      root_directory_record := bytesAt data 149 34
      volume_set_idenifier := bytesAt data 183 128
      publisher_identifier := bytesAt data 311 128
      data_preparer_identifier := bytesAt data 439 128
      application_identifier := bytesAt data 567 128
      copyright_file_identifier := bytesAt data 695 37
      abstract_file_identifier := bytesAt data 732 37
      bibliographical_file_identifier := bytesAt data 769 37
      date_and_time_of_volume_creation := bytesAt data 806 17
      date_and_time_of_most_recent_modification := bytesAt data 823 17
      date_and_time_when_volume_expires := bytesAt data 840 17
      date_and_time_when_volume_is_effective := bytesAt data 857 17
      check1 := u8 data 874
      check0 := u8 data 875
      reserved4 := bytesAt data 876 512
      reserved5 := bytesAt data 1388 653 }

/-- `get_root_directory_record` (parseiso.py lines 152-153). -/
def PrimaryVolumeDescriptor.get_root_directory_record (d : PrimaryVolumeDescriptor) :
    Except PError DirectoryRecord :=
  DirectoryRecord.from_bytes d.root_directory_record

/-- `parse_primary_volume_descriptor` (parseiso.py lines 156-179).  The
messages of the fixed-invariant checks are plain Python strings that were
never given an f prefix, so they contain their placeholder text literally;
they are reproduced here byte for byte (braces written as escapes). -/
def parse_primary_volume_descriptor (vd : VolumeDescriptor) :
    Except PError PrimaryVolumeDescriptor :=
  match unpackPVD vd with
  | .error e => .error e
  | .ok d =>
    if d.reserved1 ≠ 0 then .error (.format "bad check1 field: \x7bd.check1\x7d")
    else if d.volume_set_size ≠ 1 then
      .error (.format "bad volume set size: \x7bd.volume_set_size\x7d")
    else if d.volume_sequence_number ≠ 1 then
      .error (.format "bad volume set size: \x7bd.volume_sequence_number\x7d")
    else if d.sector_size ≠ 2048 then
      .error (.format "bad sector size: \x7bd.sector_size\x7d")
    else if d.check1 ≠ 1 then .error (.format "bad check1 field: \x7bd.check1\x7d")
    else if d.check0 ≠ 0 then .error (.format "bad check0 field: \x7bd.check1\x7d")
    else match check_u32 "number_of_sectors" d.number_of_sectors
        d.number_of_sectors_byteswapped with
    | .error e => .error e
    | .ok _ => match check_u16 "volume_set_size" d.volume_set_size
        d.volume_set_size_byteswapped with
      | .error e => .error e
      | .ok _ => match check_u16 "volume_sequence_number" d.volume_sequence_number
          d.volume_sequence_number_byteswapped with
        | .error e => .error e
        | .ok _ => match check_u16 "sector_size" d.sector_size
            d.sector_size_byteswapped with
          | .error e => .error e
          | .ok _ => match check_u32 "path_table_length" d.path_table_length
              d.path_table_length_byteswapped with
            | .error e => .error e
            | .ok _ => .ok d

/-- The result of `parse_volume_descriptor`: the Python function returns
either a `VolumeDescriptor` or, for PRIMARY blocks, a
`PrimaryVolumeDescriptor`. -/
inductive ParsedVD where
  | plain (d : VolumeDescriptor)
  | primary (d : PrimaryVolumeDescriptor)
deriving DecidableEq

/-- The `dtype` field of either result shape. -/
def ParsedVD.dtype : ParsedVD → VDType
  | .plain d => d.dtype
  | .primary d => d.dtype

/-- `parse_volume_descriptor` (parseiso.py lines 72-89) on a byte stream:
read one 2048-byte block and return the parsed descriptor with the rest of
the stream.  The enum conversion happens while the `VolumeDescriptor` is
constructed, before the identifier and version checks.  The identifier and
version messages are plain strings missing the f prefix, reproduced
literally. -/
def parse_volume_descriptor (stream : List Nat) :
    Except PError (ParsedVD × List Nat) :=
  let block := stream.take 2048
  if lengthIs block 2048 = false then
    .error (.format ("truncated volume descriptor: " ++ toString block.length ++ " bytes"))
  else match VDType.ofByte (u8 block 0) with
  | .error e => .error e
  | .ok t =>
    let d : VolumeDescriptor :=
      { dtype := t, identifier := bytesAt block 1 5, version := u8 block 6
        data := block.drop 7 }
    if d.identifier ≠ cd001 then
      .error (.format "bad volume descriptor identifier: \x7bd.identifier!r\x7d")
    else if d.version ≠ 1 then
      .error (.format "bad volume descriptor version: \x7bd.version!r\x7d")
    else if d.dtype = VDType.PRIMARY then
      match parse_primary_volume_descriptor d with
      | .error e => .error e
      | .ok p => .ok (.primary p, stream.drop 2048)
    else .ok (.plain d, stream.drop 2048)

/-- `parse_volume_descriptors` (parseiso.py lines 64-69): parse blocks until
the first TERMINATOR.  Termination holds because every successful step
consumes exactly 2048 bytes of the finite stream. -/
def parseVDsFuel : Nat → List Nat → Except PError (List ParsedVD)
  | 0, _ => .error .outOfFuel
  | fuel + 1, stream =>
    match parse_volume_descriptor stream with
    | .error e => .error e
    | .ok (d, rest) =>
      if d.dtype = VDType.TERMINATOR then .ok []
      else
        match parseVDsFuel fuel rest with
        | .error e => .error e
        | .ok ds => .ok (d :: ds)

/-- `parse_volume_descriptors` at its sufficient fuel: every successful step
consumes 2048 bytes of the finite stream, so `stream.length + 1` steps always
reach a terminator, a truncated read, or another error. -/
def parse_volume_descriptors (stream : List Nat) : Except PError (List ParsedVD) :=
  parseVDsFuel (listLength stream + 1) stream

/-!
Paths.  A `pathlib.PurePosixPath` is modelled as the list of its components
after normalisation (absolute, single dots removed, no empty components), so
the root `/` is `[]` and `/boot/grub` is `["boot", "grub"]`.  The claims use
only paths on which `PurePosixPath` normalisation is this identity map.
-/

/-- `str(path)` for an absolute pure POSIX path. -/
def pathStr (p : List String) : String := "/" ++ String.intercalate "/" p

/-- `path.parent`. -/
def pathParent (p : List String) : List String := p.dropLast

/-- `path.name` (empty for the root). -/
def pathName (p : List String) : String := p.getLastD ""

/-- `str.upper()` on one component: upper-case every character (ASCII, as in
the images this program targets; written over the character list so that it
evaluates by kernel reduction). -/
def pyUpper (s : String) : String := String.mk (s.toList.map Char.toUpper)

/-- `str(path).upper()`: the slash is unaffected, so every component is
upper-cased. -/
def upperPath (p : List String) : List String := p.map pyUpper

/-- `PurePosixPath(str(path) + ";1")`: the suffix lands on the final
component (on the root it becomes the single component `;1`). -/
def addV1 (p : List String) : List String := p.dropLast ++ [pathName p ++ ";1"]

/-- The candidate list built by `TreeWalker.lookup` (parseiso.py lines
308-311): the exact request, its upper-cased form, and, when the final name
carries no `;` version marker, both forms with `;1` appended.  Upper-casing
`;1` leaves it unchanged, so the fourth candidate is the upper-cased form of
the third. -/
def alt_paths (p : List String) : List (List String) :=
  [p, upperPath p] ++
    (if (pathName p).toList.contains ';' then [] else [addV1 p, upperPath (addV1 p)])

/-- `parent / entry.name`: `PurePosixPath` drops `.` and empty segments and
keeps `..` as a literal component. -/
def joinName (parent : List String) (s : String) : List String :=
  if s = "." ∨ s = "" then parent else parent ++ [s]

/-- The `TreeWalker` session state (parseiso.py lines 291-298): the image
byte source, the primary volume descriptor, and the path cache, an
insertion-ordered mapping from absolute path to directory record, plus the
trace of seek/read operations performed so far (observable behaviour of the
Python file object). -/
structure TreeWalker where
  img : List Nat
  pvd : PrimaryVolumeDescriptor
  cache : List (List String × DirectoryRecord)
  trace : List IOOp
deriving DecidableEq

/-- `path in self.cache`. -/
def cacheHas (cache : List (List String × DirectoryRecord)) (p : List String) : Bool :=
  cache.any fun kv => kv.1 == p

/-- `self.cache[path]` (first binding; keys are unique because insertion
goes through `setdefault`). -/
def cacheGet (cache : List (List String × DirectoryRecord)) (p : List String) :
    Option DirectoryRecord :=
  (cache.find? fun kv => kv.1 == p).map Prod.snd

/-- `dict.setdefault`: insert at the end only when the key is absent. -/
def setdefault (cache : List (List String × DirectoryRecord)) (k : List String)
    (v : DirectoryRecord) : List (List String × DirectoryRecord) :=
  if cacheHas cache k then cache else cache ++ [(k, v)]

/-- The `for entry in self.listdir(parent)` loop body of `lookup`
(parseiso.py line 306-307). -/
def cacheEntries (cache : List (List String × DirectoryRecord)) (parent : List String)
    (entries : List DirectoryRecord) : List (List String × DirectoryRecord) :=
  entries.foldl (fun c e => setdefault c (joinName parent e.name) e) cache

mutual

/-- `TreeWalker.lookup` (parseiso.py lines 300-315) with explicit fuel for
the mutual recursion.  When the requested path is not yet a cache key the
parent is resolved recursively and the listing of the parent is folded into
the cache with `setdefault`; then the candidate forms are tried in order
against the cache.  The Python `for` loop rebinds the local name `path`, so
the error message of a failed lookup interpolates the last candidate tried,
not the requested path. -/
def lookupFuel : Nat → TreeWalker → List String → Except PError (TreeWalker × List String)
  | 0, _, _ => .error .outOfFuel
  | fuel + 1, w, p =>
    let phase1 : Except PError TreeWalker :=
      if cacheHas w.cache p then .ok w
      else
        match lookupFuel fuel w (pathParent p) with
        | .error e => .error e
        | .ok (w1, parent) =>
          match listdirFuel fuel w1 parent with
          | .error e => .error e
          | .ok (w2, entries) =>
            .ok { w2 with cache := cacheEntries w2.cache parent entries }
    match phase1 with
    | .error e => .error e
    | .ok w3 =>
      match (alt_paths p).find? (fun c => cacheHas w3.cache c) with
      | some c => .ok (w3, c)
      | none =>
        .error (.fileNotFound
          ("no such file or directory: " ++ pathStr ((alt_paths p).getLastD p)))

/-- `TreeWalker.get` (parseiso.py lines 317-319). -/
def getFuel : Nat → TreeWalker → List String → Except PError (TreeWalker × DirectoryRecord)
  | 0, _, _ => .error .outOfFuel
  | fuel + 1, w, p =>
    match lookupFuel fuel w p with
    | .error e => .error e
    | .ok (w1, rp) =>
      match cacheGet w1.cache rp with
      | some d => .ok (w1, d)
      | none => .error .keyError

/-- `TreeWalker.listdir` (parseiso.py lines 321-325): requires the resolved
record to be a directory, then reads its extent (recording the seek/read in
the trace) and decodes it as a sequence of directory records. -/
def listdirFuel : Nat → TreeWalker → List String →
    Except PError (TreeWalker × List DirectoryRecord)
  | 0, _, _ => .error .outOfFuel
  | fuel + 1, w, p =>
    match getFuel fuel w p with
    | .error e => .error e
    | .ok (w1, d) =>
      if d.is_directory then
        let ro := d.read_from w1.img
        let w2 := { w1 with trace := w1.trace ++ ro.2 }
        match ro.1 with
        | .error e => .error e
        | .ok bytes =>
          match parse_directory bytes with
          | .error e => .error e
          | .ok ds => .ok (w2, ds)
      else .error (.notADirectory ("not a directory: " ++ pathStr p))

end

/-- `TreeWalker.read` (parseiso.py lines 327-333): directories and
multi-extent records are rejected (both via `IsADirectoryError`, the second
with a message about multiple extents), otherwise the extent is read. -/
def readFuel : Nat → TreeWalker → List String → Except PError (TreeWalker × List Nat)
  | 0, _, _ => .error .outOfFuel
  | fuel + 1, w, p =>
    match getFuel fuel w p with
    | .error e => .error e
    | .ok (w1, d) =>
      if d.is_directory then
        .error (.isADirectory ("not a regular file: " ++ pathStr p))
      else if d.has_extents then
        .error (.isADirectory (pathStr p ++ " has multiple extents which is not supported"))
      else
        let ro := d.read_from w1.img
        let w2 := { w1 with trace := w1.trace ++ ro.2 }
        match ro.1 with
        | .error e => .error e
        | .ok bytes => .ok (w2, bytes)

/-- Fuel sufficient for any resolution of a path with `p.length`
components (each level costs a bounded number of nested calls). -/
def fuelFor (p : List String) : Nat := 4 * p.length + 16

/-- `TreeWalker.lookup` at the standard fuel. -/
def TreeWalker.lookup (w : TreeWalker) (p : List String) :
    Except PError (TreeWalker × List String) := lookupFuel (fuelFor p) w p

/-- `TreeWalker.get` at the standard fuel. -/
def TreeWalker.get (w : TreeWalker) (p : List String) :
    Except PError (TreeWalker × DirectoryRecord) := getFuel (fuelFor p) w p

/-- `TreeWalker.listdir` at the standard fuel. -/
def TreeWalker.listdir (w : TreeWalker) (p : List String) :
    Except PError (TreeWalker × List DirectoryRecord) := listdirFuel (fuelFor p) w p

/-- `TreeWalker.read` at the standard fuel. -/
def TreeWalker.read (w : TreeWalker) (p : List String) :
    Except PError (TreeWalker × List Nat) := readFuel (fuelFor p) w p

/-- The dictionary comprehension of `parse_iso` (lines 35-37): keying the
descriptors by type makes the last PRIMARY descriptor win. -/
def findPrimary (ds : List ParsedVD) : Option PrimaryVolumeDescriptor :=
  ds.foldl (fun acc d => match d with | .primary pd => some pd | .plain _ => acc) none

/-- `parse_iso` (parseiso.py lines 29-43): skip the 32 KiB system area, scan
the volume descriptors up to the terminator, require a PRIMARY descriptor,
and seed the tree walker cache with the root directory record at `/`. -/
def parse_iso (file : List Nat) : Except PError TreeWalker :=
  match parse_volume_descriptors (file.drop 32768) with
  | .error e => .error e
  | .ok ds =>
    match findPrimary ds with
    | none => .error (.format "primary volume descriptor not found")
    | some primary =>
      match primary.get_root_directory_record with
      | .error e => .error e
      | .ok root =>
        .ok { img := file, pvd := primary, cache := [([], root)], trace := [] }

/-!
Concrete test data: byte builders and a small synthetic image holding
`/BOOT/GRUB/GRUB.CFG;1` with contents "hello", plus a multi-extent file
`/BOOT/GRUB/BIG;1`.
-/

/-- Little-endian bytes of a 16-bit value. -/
def le16 (v : Nat) : List Nat := [v % 256, v / 256 % 256]

/-- Big-endian bytes of a 16-bit value. -/
def be16 (v : Nat) : List Nat := [v / 256 % 256, v % 256]

/-- Little-endian bytes of a 32-bit value. -/
def le32 (v : Nat) : List Nat := [v % 256, v / 256 % 256, v / 65536 % 256, v / 16777216 % 256]

/-- Big-endian bytes of a 32-bit value. -/
def be32 (v : Nat) : List Nat := [v / 16777216 % 256, v / 65536 % 256, v / 256 % 256, v % 256]

/-- ASCII bytes of a string. -/
def ascii (s : String) : List Nat := s.toList.map Char.toNat

/-- `n` zero bytes. -/
def zeros (n : Nat) : List Nat := List.replicate n 0

/-- Wire bytes of one directory record: fixed prefix, identifier, and the
parity padding byte, with both byte orders of each duplicated field in
agreement and volume sequence number 1. -/
def mkRecBytes (sector size flags : Nat) (ident : List Nat) : List Nat :=
  let pad := 1 - ident.length % 2
  let total := 33 + ident.length + pad
  [total, 0] ++ le32 sector ++ be32 sector ++ le32 size ++ be32 size
    ++ [0, 0, 0, 0, 0, 0, 0, flags, 0, 0] ++ le16 1 ++ be16 1
    ++ [ident.length] ++ ident ++ zeros pad

/-- Zero-pad a directory extent to `n` bytes (the zero tail also supplies
the zero size byte that ends `parse_directory`). -/
def padTo (n : Nat) (l : List Nat) : List Nat := l ++ zeros (n - l.length)

/-- Extent of the root directory (sector 0): entries `.`, `..`, `BOOT`. -/
def rootExtent : List Nat :=
  padTo 2048 (mkRecBytes 0 107 2 [0] ++ mkRecBytes 0 107 2 [1]
    ++ mkRecBytes 1 107 2 (ascii "BOOT"))

/-- Extent of `/BOOT` (sector 1): entries `.`, `..`, `GRUB`. -/
def bootExtent : List Nat :=
  padTo 2048 (mkRecBytes 1 107 2 [0] ++ mkRecBytes 0 107 2 [1]
    ++ mkRecBytes 2 151 2 (ascii "GRUB"))

/-- Extent of `/BOOT/GRUB` (sector 2): entries `.`, `..`, the five-byte file
`GRUB.CFG;1` at sector 3, and the multi-extent file `BIG;1` (flags bit 7). -/
def grubExtent : List Nat :=
  padTo 2048 (mkRecBytes 2 151 2 [0] ++ mkRecBytes 1 107 2 [1]
    ++ mkRecBytes 3 5 0 (ascii "GRUB.CFG;1") ++ mkRecBytes 3 5 128 (ascii "BIG;1"))

/-- The synthetic image: three directory extents and the file data. -/
def isoImage : List Nat := rootExtent ++ bootExtent ++ grubExtent ++ ascii "hello"

/-- A placeholder primary volume descriptor value for directly constructed
walkers (the walker methods never consult this field). -/
def pvd0 : PrimaryVolumeDescriptor :=
  { dtype := .PRIMARY, identifier := cd001, version := 1, reserved1 := 0
    system_identifier := [], volume_identifier := [], reserved2 := []
    number_of_sectors := 0, number_of_sectors_byteswapped := 0, reserved3 := []
    volume_set_size := 1, volume_set_size_byteswapped := 256
    volume_sequence_number := 1, volume_sequence_number_byteswapped := 256
    sector_size := 2048, sector_size_byteswapped := 8
    path_table_length := 0, path_table_length_byteswapped := 0
    first_sector_in_first_le_path_table := 0, first_sector_in_second_le_path_table := 0
    first_sector_in_first_be_path_table_byteswapped := 0
    first_sector_in_second_be_path_table_byteswapped := 0
    root_directory_record := mkRecBytes 0 2048 2 [0]
    volume_set_idenifier := [], publisher_identifier := []
    data_preparer_identifier := [], application_identifier := []
    copyright_file_identifier := [], abstract_file_identifier := []
    bibliographical_file_identifier := [], date_and_time_of_volume_creation := []
    date_and_time_of_most_recent_modification := []
    date_and_time_when_volume_expires := [], date_and_time_when_volume_is_effective := []
    check1 := 1, check0 := 0, reserved4 := [], reserved5 := [] }

/-- The root directory record seeded at `/` in the demo session. -/
def demoRoot : DirectoryRecord :=
  { record_size := 34, extended_attribute_record_size := 0
    first_sector := 0, first_sector_byteswapped := 0
    file_size := 107, file_size_byteswapped := 0
    years_since_1900 := 0, month := 0, day := 0, hour := 0, minute := 0, second := 0
    utc_offset := 0, flags := 2, interleaved_file_unit_size := 0, interleave_gap_size := 0
    volume_sequence_number := 1, volume_sequence_number_byteswapped := 256
    identifier_length := 1, identifier := [0], padding := [0], extra := [] }

/-- A freshly opened session over the synthetic image. -/
def demoWalker : TreeWalker :=
  { img := isoImage, pvd := pvd0, cache := [([], demoRoot)], trace := [] }

/-- A full 2048-byte volume descriptor block whose type byte 4 is one of the
reserved values outside the enum, and whose magic and version are also
invalid. -/
def reservedTypeBlock : List Nat := [4] ++ ascii "XXXXX" ++ [9] ++ List.replicate 2041 7

/-- A block with a valid type byte and version but magic bytes BADID. -/
def badMagicBlock : List Nat := [0] ++ ascii "BADID" ++ [1] ++ zeros 2041

/-- A valid TERMINATOR descriptor block. -/
def termBlock : List Nat := [255] ++ cd001 ++ [1] ++ zeros 2041

/-- A valid BOOT_RECORD descriptor block. -/
def bootBlock : List Nat := [0] ++ cd001 ++ [1] ++ zeros 2041

/-- A 2041-byte primary descriptor payload whose sector-size byte pair and
path-table block are parameters; everything else satisfies the decoder:
volume set size 1, volume sequence number 1, marker bytes 1 and 0, all
byte-order pairs in agreement, and a well-formed 34-byte root record. -/
def mkPVDdata (sec pt : List Nat) : List Nat :=
  zeros 73 ++ zeros 8 ++ zeros 32 ++ le16 1 ++ be16 1 ++ le16 1 ++ be16 1 ++ sec
    ++ zeros 8 ++ pt ++ mkRecBytes 0 2048 2 [0] ++ zeros 691 ++ [1, 0] ++ zeros 1165

/-- A primary descriptor that passes every check of the decoder. -/
def goodPVDvd : VolumeDescriptor :=
  { dtype := .PRIMARY, identifier := cd001, version := 1
    data := mkPVDdata (le16 2048 ++ be16 2048) (zeros 16) }

/-- Like `goodPVDvd` but the little-endian path-table location is 1 while
the big-endian path-table location field holds 0: the only byte-order
duplicated quantity of the layout that the decoder never cross-checks. -/
def cexC1vd : VolumeDescriptor :=
  { dtype := .PRIMARY, identifier := cd001, version := 1
    data := mkPVDdata (le16 2048 ++ be16 2048) (le32 1 ++ zeros 12) }

/-- The descriptor the decoder produces from `cexC1vd`. -/
def cexC1parsed : PrimaryVolumeDescriptor :=
  match parse_primary_volume_descriptor cexC1vd with
  | .ok d => d
  | .error _ => pvd0

/-- Like `goodPVDvd` but with sector size 512 (both byte orders agreeing). -/
def badSectorVd : VolumeDescriptor :=
  { dtype := .PRIMARY, identifier := cd001, version := 1
    data := mkPVDdata (le16 512 ++ be16 512) (zeros 16) }

/-- A full valid PRIMARY descriptor block wrapping `goodPVDvd`. -/
def primaryBlock : List Nat := [1] ++ cd001 ++ [1] ++ goodPVDvd.data

/-- A minimal image file: 32 KiB system area, one PRIMARY descriptor and a
TERMINATOR. -/
def isoFileDemo : List Nat := zeros 32768 ++ primaryBlock ++ termBlock

/-- The wire bytes of the `GRUB.CFG;1` record inside `grubExtent`. -/
def grubCfgRecBytes : List Nat := mkRecBytes 3 5 0 (ascii "GRUB.CFG;1")

/-- The record decoded from `grubCfgRecBytes`. -/
def grubCfgRec : DirectoryRecord :=
  match DirectoryRecord.from_bytes grubCfgRecBytes with
  | .ok d => d
  | .error _ => demoRoot

/-- A 34-byte block whose declared record size byte is 5. -/
def badSizeBlock : List Nat := 5 :: zeros 33

/-- A zero-length record (the `file_size` field is 0). -/
def zeroSizeRec : DirectoryRecord := { demoRoot with file_size := 0, flags := 0 }

/-- The session state after a first resolution of `/boot`. -/
def demoWalker1 : TreeWalker :=
  match TreeWalker.lookup demoWalker ["boot"] with
  | .ok (w, _) => w
  | .error _ => demoWalker

/-- The session state after resolving `/boot` a second time. -/
def demoWalker2 : TreeWalker :=
  match TreeWalker.lookup demoWalker1 ["boot"] with
  | .ok (w, _) => w
  | .error _ => demoWalker1

/-- One scanning step reads a full block that parses as a descriptor other
than TERMINATOR. -/
def stepOkNonTerm (s : List Nat) : Bool :=
  match parse_volume_descriptor s with
  | .ok (d, _) => decide (d.dtype ≠ VDType.TERMINATOR)
  | .error _ => false

/-- The stream parses block by block without ever meeting a TERMINATOR and
without errors, until fewer than 2048 bytes remain. -/
def goodScanFuel : Nat → List Nat → Bool
  | 0, _ => false
  | fuel + 1, s =>
    if lengthAtLeast s 2048 then stepOkNonTerm s && goodScanFuel fuel (s.drop 2048)
    else true

/-- `goodScanFuel` at the fuel of `parse_volume_descriptors`. -/
def goodScan (s : List Nat) : Bool := goodScanFuel (listLength s + 1) s

/-- The directory record resolved for a path, when resolution succeeds. -/
def getRecord (fuel : Nat) (w : TreeWalker) (p : List String) : Option DirectoryRecord :=
  match getFuel fuel w p with
  | .ok (_, d) => some d
  | .error _ => none

/-- The record of `/BOOT` in the demo session. -/
def demoBootRec : DirectoryRecord :=
  match getRecord 19 demoWalker ["boot"] with
  | some d => d
  | none => demoRoot

/-- The record of the multi-extent file `/BOOT/GRUB/BIG;1`. -/
def demoBigRec : DirectoryRecord :=
  match getRecord 27 demoWalker ["boot", "grub", "big"] with
  | some d => d
  | none => demoRoot

/-!
## Theorems

Basic lemmas about the helpers, then one theorem (with witness or
counterexample where required) per claim.
-/

theorem lengthIs_iff (l : List Nat) : ∀ n, lengthIs l n = true ↔ l.length = n := by
  induction l with
  | nil => intro n; cases n <;> simp [lengthIs]
  | cons hd tl ih => intro n; cases n <;> simp [lengthIs, ih]

theorem lengthAtLeast_iff (l : List Nat) : ∀ n, lengthAtLeast l n = true ↔ n ≤ l.length := by
  induction l with
  | nil => intro n; cases n <;> simp [lengthAtLeast]
  | cons hd tl ih =>
    intro n
    cases n
    · simp [lengthAtLeast]
    · simp [lengthAtLeast, ih]

theorem lenTR_eq (l : List Nat) : ∀ acc, lenTR l acc = l.length + acc := by
  induction l with
  | nil => intro acc; simp [lenTR]
  | cons hd tl ih => intro acc; cases acc <;> simp [lenTR, ih] <;> omega

theorem listLength_eq (l : List Nat) : listLength l = l.length := by
  simp [listLength, lenTR_eq]

/-- A successful single-descriptor parse consumes exactly 2048 bytes. -/
theorem parse_volume_descriptor_rest {s : List Nat} {d : ParsedVD} {rest : List Nat}
    (h : parse_volume_descriptor s = .ok (d, rest)) :
    rest = s.drop 2048 ∧ 2048 ≤ s.length := by
  simp only [parse_volume_descriptor] at h
  split at h
  · exact absurd h (by simp)
  · rename_i hlen
    have hs : 2048 ≤ s.length := by
      have htrue : lengthIs (s.take 2048) 2048 = true := by
        revert hlen; cases lengthIs (s.take 2048) 2048 <;> simp
      have h2 := (lengthIs_iff _ _).1 htrue
      simp only [List.length_take] at h2
      omega
    split at h
    · exact absurd h (by simp)
    · split at h
      · exact absurd h (by simp)
      · split at h
        · exact absurd h (by simp)
        · split at h
          · split at h
            · exact absurd h (by simp)
            · exact ⟨by injection h with h1; injection h1 with _ h2; exact h2.symm, hs⟩
          · exact ⟨by injection h with h1; injection h1 with _ h2; exact h2.symm, hs⟩

/-- A successful `check_byteswapped` means the base field equals the
byte-order conversion of its duplicate. -/
theorem check_byteswapped_ok {n : String} {v b : Nat} {s : Nat → Nat} {u : Unit}
    (h : check_byteswapped n v b s = .ok u) : v = s b := by
  unfold check_byteswapped at h
  by_cases hv : v = s b
  · exact hv
  · simp [hv] at h

/-- Everything `parse_primary_volume_descriptor` validates on success: the
five byte-order pairs it checks and the fixed invariants. -/
theorem parse_primary_ok_invariants (vd : VolumeDescriptor) (d : PrimaryVolumeDescriptor)
    (h : parse_primary_volume_descriptor vd = .ok d) :
    d.number_of_sectors = swap32 d.number_of_sectors_byteswapped ∧
    d.volume_set_size = swap16 d.volume_set_size_byteswapped ∧
    d.volume_sequence_number = swap16 d.volume_sequence_number_byteswapped ∧
    d.sector_size = swap16 d.sector_size_byteswapped ∧
    d.path_table_length = swap32 d.path_table_length_byteswapped ∧
    d.sector_size = 2048 ∧ d.volume_set_size = 1 ∧ d.volume_sequence_number = 1 ∧
    d.check1 = 1 ∧ d.check0 = 0 := by
  simp only [parse_primary_volume_descriptor] at h
  split at h
  · exact absurd h (by simp)
  · rename_i d0 hu
    by_cases h1 : d0.reserved1 ≠ 0
    · simp [h1] at h
    rw [if_neg h1] at h
    by_cases h2 : d0.volume_set_size ≠ 1
    · simp [h2] at h
    rw [if_neg h2] at h
    by_cases h3 : d0.volume_sequence_number ≠ 1
    · simp [h3] at h
    rw [if_neg h3] at h
    by_cases h4 : d0.sector_size ≠ 2048
    · simp [h4] at h
    rw [if_neg h4] at h
    by_cases h5 : d0.check1 ≠ 1
    · simp [h5] at h
    rw [if_neg h5] at h
    by_cases h6 : d0.check0 ≠ 0
    · simp [h6] at h
    rw [if_neg h6] at h
    cases hc1 : check_u32 "number_of_sectors" d0.number_of_sectors
        d0.number_of_sectors_byteswapped with
    | error e => simp [hc1] at h
    | ok u1 =>
    simp only [hc1] at h
    cases hc2 : check_u16 "volume_set_size" d0.volume_set_size
        d0.volume_set_size_byteswapped with
    | error e => simp [hc2] at h
    | ok u2 =>
    simp only [hc2] at h
    cases hc3 : check_u16 "volume_sequence_number" d0.volume_sequence_number
        d0.volume_sequence_number_byteswapped with
    | error e => simp [hc3] at h
    | ok u3 =>
    simp only [hc3] at h
    cases hc4 : check_u16 "sector_size" d0.sector_size d0.sector_size_byteswapped with
    | error e => simp [hc4] at h
    | ok u4 =>
    simp only [hc4] at h
    cases hc5 : check_u32 "path_table_length" d0.path_table_length
        d0.path_table_length_byteswapped with
    | error e => simp [hc5] at h
    | ok u5 =>
    simp only [hc5] at h
    injection h with h
    subst h
    exact ⟨check_byteswapped_ok hc1, check_byteswapped_ok hc2, check_byteswapped_ok hc3,
      check_byteswapped_ok hc4, check_byteswapped_ok hc5,
      not_not.mp h4, not_not.mp h2, not_not.mp h3, not_not.mp h5, not_not.mp h6⟩

/-- Claim C1, amended: on every 2041-byte payload of a descriptor typed
PRIMARY that the decoder accepts, the FIVE byte-order-duplicated integer
field pairs that the decoder validates (number of sectors, volume set size,
volume sequence number, sector size, path table length) agree after
byte-order conversion, and the fixed invariants hold: sector size 2048,
volume set size 1, volume sequence number 1, marker bytes 1 and 0.
Contrapositively, a disagreement in any of those five pairs (or a violated
fixed invariant) makes the decoder raise an error.  The path-table location
pair is not validated (see the counterexample). -/
theorem C1_theorem : ∀ vd : VolumeDescriptor,
    match parse_primary_volume_descriptor vd with
    | .ok d =>
      d.number_of_sectors = swap32 d.number_of_sectors_byteswapped ∧
      d.volume_set_size = swap16 d.volume_set_size_byteswapped ∧
      d.volume_sequence_number = swap16 d.volume_sequence_number_byteswapped ∧
      d.sector_size = swap16 d.sector_size_byteswapped ∧
      d.path_table_length = swap32 d.path_table_length_byteswapped ∧
      d.sector_size = 2048 ∧ d.volume_set_size = 1 ∧ d.volume_sequence_number = 1 ∧
      d.check1 = 1 ∧ d.check0 = 0
    | .error _ => True := by
  intro vd
  cases hp : parse_primary_volume_descriptor vd with
  | error e => exact trivial
  | ok d => exact parse_primary_ok_invariants vd d hp

/-- Claim C1 counterexample: a 2041-byte PRIMARY payload on which the
decoder succeeds although the little-endian path-table location (1) does not
equal the byte-order conversion of the big-endian path-table location field
(0): the decoder validates five byte-order pairs, not six. -/
theorem C1_counterexample :
    cexC1parsed.first_sector_in_first_le_path_table = 1 ∧
    swap32 cexC1parsed.first_sector_in_first_be_path_table_byteswapped = 0 ∧
    (match parse_primary_volume_descriptor cexC1vd with
      | .ok _ => true
      | .error _ => false) = true := by decide

/-- Everything `DirectoryRecord.from_bytes` guarantees about the variable
layout on success. -/
theorem from_bytes_ok_shape (block : List Nat) (d : DirectoryRecord)
    (h : DirectoryRecord.from_bytes block = .ok d) :
    d.record_size = block.length ∧
    d.identifier_length = u8 block 32 ∧
    d.identifier = bytesAt block 33 d.identifier_length ∧
    d.padding.length = (if d.identifier_length % 2 = 0 then 1 else 0) ∧
    d.padding = bytesAt block (33 + d.identifier_length) d.padding.length ∧
    d.extra = bytesAt block (33 + d.identifier_length + d.padding.length)
      (d.record_size - (33 + d.identifier_length + d.padding.length)) ∧
    33 + d.identifier_length + d.padding.length + d.extra.length = d.record_size := by
  unfold DirectoryRecord.from_bytes at h
  split at h
  · exact absurd h (by simp)
  · rename_i hlen33
    by_cases hrs : u8 block 0 ≠ block.length
    · simp [hrs] at h
    rw [if_neg hrs] at h
    by_cases hea : u8 block 1 ≠ 0
    · simp [hea] at h
    rw [if_neg hea] at h
    cases hc1 : check_u32 "first_sector" (u32le block 2) (u32le block 6) with
    | error e => simp [hc1] at h
    | ok u1 =>
    simp only [hc1] at h
    cases hc2 : check_u32 "file_size" (u32le block 10) (u32le block 14) with
    | error e => simp [hc2] at h
    | ok u2 =>
    simp only [hc2] at h
    cases hc3 : check_u16 "volume_sequence_number" (u16le block 28) (u16le block 30) with
    | error e => simp [hc3] at h
    | ok u3 =>
    simp only [hc3] at h
    split at h
    · exact absurd h (by simp)
    · rename_i hfit
      injection h with h
      subst h
      dsimp only
      simp only [not_lt] at hfit
      simp only [not_not] at hrs
      constructor
      · exact hrs
      constructor
      · rfl
      constructor
      · rfl
      have hpadlen : (bytesAt block (33 + u8 block 32) (1 - u8 block 32 % 2)).length
          = 1 - u8 block 32 % 2 := by
        simp [bytesAt, List.length_take, List.length_drop]
        omega
      constructor
      · rw [hpadlen]
        rcases Nat.mod_two_eq_zero_or_one (u8 block 32) with hm | hm <;> simp [hm]
      constructor
      · rw [hpadlen]
      constructor
      · rw [hpadlen]
      · have hextlen : (bytesAt block (33 + u8 block 32 + (1 - u8 block 32 % 2))
            (u8 block 0 - (33 + u8 block 32 + (1 - u8 block 32 % 2)))).length
            = u8 block 0 - (33 + u8 block 32 + (1 - u8 block 32 % 2)) := by
          simp [bytesAt, List.length_take, List.length_drop]
          omega
        rw [hpadlen, hextlen]
        omega

/-- Claim C5: a decoded directory record consumes the 33-byte fixed prefix,
then identifier-length name bytes, then exactly one padding byte when the
name length is even and none when it is odd, then extra bytes filling the
record out to its declared size, which must equal the bytes available: a
declared record size different from the span of the block is a fatal
`FormatError` naming both values. -/
theorem C5_theorem : ∀ block : List Nat,
    (match DirectoryRecord.from_bytes block with
     | .ok d =>
        d.record_size = block.length ∧
        d.identifier_length = u8 block 32 ∧
        d.identifier = bytesAt block 33 d.identifier_length ∧
        d.padding.length = (if d.identifier_length % 2 = 0 then 1 else 0) ∧
        d.padding = bytesAt block (33 + d.identifier_length) d.padding.length ∧
        d.extra = bytesAt block (33 + d.identifier_length + d.padding.length)
          (d.record_size - (33 + d.identifier_length + d.padding.length)) ∧
        33 + d.identifier_length + d.padding.length + d.extra.length = d.record_size
     | .error _ => True) ∧
    (33 ≤ block.length → u8 block 0 ≠ block.length →
      DirectoryRecord.from_bytes block = .error (.format ("directory record size mismatch: "
        ++ toString (u8 block 0) ++ " != " ++ toString block.length))) := by
  intro block
  constructor
  · cases hp : DirectoryRecord.from_bytes block with
    | error e => exact trivial
    | ok d => exact from_bytes_ok_shape block d hp
  · intro h33 hne
    unfold DirectoryRecord.from_bytes
    rw [if_neg (by omega), if_pos hne]

/-- Claim C5 witness: the even-length name `GRUB.CFG;1` record decodes with
one padding byte and the exact layout, and a block whose declared size 5
differs from its 34 available bytes is rejected with both values named. -/
theorem C5_witness :
    (grubCfgRec.record_size = grubCfgRecBytes.length ∧
     grubCfgRec.identifier_length = u8 grubCfgRecBytes 32 ∧
     grubCfgRec.identifier = bytesAt grubCfgRecBytes 33 grubCfgRec.identifier_length ∧
     grubCfgRec.padding.length
       = (if grubCfgRec.identifier_length % 2 = 0 then 1 else 0) ∧
     grubCfgRec.padding = bytesAt grubCfgRecBytes (33 + grubCfgRec.identifier_length)
       grubCfgRec.padding.length ∧
     grubCfgRec.extra = bytesAt grubCfgRecBytes
       (33 + grubCfgRec.identifier_length + grubCfgRec.padding.length)
       (grubCfgRec.record_size
         - (33 + grubCfgRec.identifier_length + grubCfgRec.padding.length)) ∧
     33 + grubCfgRec.identifier_length + grubCfgRec.padding.length
       + grubCfgRec.extra.length = grubCfgRec.record_size) ∧
    DirectoryRecord.from_bytes badSizeBlock
      = .error (.format "directory record size mismatch: 5 != 34") := by
  constructor
  · have h := (C5_theorem grubCfgRecBytes).1
    rw [show DirectoryRecord.from_bytes grubCfgRecBytes = .ok grubCfgRec from by decide] at h
    exact h
  · exact (C5_theorem badSizeBlock).2 (by decide) (by decide)

/-- Claim C6: reading the content of a record whose size field is zero
returns the empty byte sequence with no seek or read performed; otherwise
the image is sought to location times 2048 and exactly size bytes are read,
a shorter read raising the file-truncated `FormatError`, so a successful
read never returns a short result. -/
theorem C6_theorem : ∀ (d : DirectoryRecord) (img : List Nat),
    (d.file_size = 0 → d.read_from img = (.ok [], [])) ∧
    (d.file_size ≠ 0 → (d.read_from img).2 =
      [IOOp.seek (d.first_sector * 2048), IOOp.read d.file_size]) ∧
    (∀ bs, (d.read_from img).1 = .ok bs → bs.length = d.file_size) ∧
    (((img.drop (d.first_sector * 2048)).take d.file_size).length ≠ d.file_size →
      (d.read_from img).1 = .error (.format "file truncated")) := by
  intro d img
  unfold DirectoryRecord.read_from
  by_cases h0 : d.file_size = 0
  · simp [h0]
  · rw [List.length_take, List.length_drop]
    by_cases hlt : img.length - d.first_sector * 2048 < d.file_size
    · have hne : min d.file_size (img.length - d.first_sector * 2048) ≠ d.file_size := by
        omega
      simp [h0, hlt, hne]
    · have heq : min d.file_size (img.length - d.first_sector * 2048) = d.file_size := by
        omega
      simp [h0, hlt, heq]

/-- Claim C6 witness: a zero-size record reads as empty with no seek or
read, and the 107-byte root directory read seeks to sector 0 and reads 107
bytes. -/
theorem C6_witness :
    (zeroSizeRec.read_from isoImage = (.ok [], [])) ∧
    ((demoRoot.read_from isoImage).2 = [IOOp.seek 0, IOOp.read 107]) :=
  ⟨(C6_theorem zeroSizeRec isoImage).1 (by decide),
   by
     have h := (C6_theorem demoRoot isoImage).2.1 (by decide)
     simpa using h⟩

/-- Claim C10: a 2048-byte volume descriptor block whose type byte is the
reserved value 4 makes parsing raise `ValueError` from the enum conversion,
even though its magic bytes are also invalid: the conversion happens before
the magic and version checks, so the failure escapes the `FormatError`
taxonomy. -/
theorem C10_theorem :
    parse_volume_descriptor reservedTypeBlock = .error (.valueError 4) ∧
    bytesAt reservedTypeBlock 1 5 ≠ cd001 := by decide

/-- Claim C4: the structural-violation messages that were written as plain
Python strings with placeholder syntax but no f prefix are raised literally
(bad magic, and the bad-sector-size fixed invariant shown here), while the
byte-swap-disagreement and record-size-mismatch messages do interpolate the
observed values. -/
theorem C4_theorem :
    parse_volume_descriptor badMagicBlock
      = .error (.format "bad volume descriptor identifier: \x7bd.identifier!r\x7d") ∧
    parse_primary_volume_descriptor badSectorVd
      = .error (.format "bad sector size: \x7bd.sector_size\x7d") ∧
    check_u16 "sector_size" 2048 0 = .error (.format "sector_size mismatch: 2048 != 0") ∧
    DirectoryRecord.from_bytes badSizeBlock
      = .error (.format "directory record size mismatch: 5 != 34") := by decide

/-- A stream shorter than one block makes `parse_volume_descriptor` raise
the truncation `FormatError` with the byte count. -/
theorem pvd_truncated (s : List Nat) (h : s.length < 2048) :
    parse_volume_descriptor s = .error (.format ("truncated volume descriptor: "
      ++ toString s.length ++ " bytes")) := by
  have hb : (s.take 2048).length = s.length := by
    simp [List.length_take]
    omega
  have hfalse : lengthIs (s.take 2048) 2048 = false := by
    rw [Bool.eq_false_iff]
    intro ht
    have := (lengthIs_iff _ _).1 ht
    omega
  simp only [parse_volume_descriptor, hfalse, hb]
  rfl

/-- Scanning a terminator-free stream of valid blocks always ends in the
truncation error on the remainder. -/
theorem parseVDs_no_term : ∀ fuel s, goodScanFuel fuel s = true →
    parseVDsFuel fuel s = .error (.format ("truncated volume descriptor: "
      ++ toString (s.length % 2048) ++ " bytes")) := by
  intro fuel
  induction fuel with
  | zero => intro s h; simp [goodScanFuel] at h
  | succ fuel ih =>
    intro s h
    simp only [goodScanFuel] at h
    split at h
    · rename_i h2048
      rw [Bool.and_eq_true] at h
      obtain ⟨hstep, hrest⟩ := h
      have hlen : 2048 ≤ s.length := (lengthAtLeast_iff _ _).1 h2048
      unfold stepOkNonTerm at hstep
      split at hstep
      · rename_i d rest hp
        have hd := of_decide_eq_true hstep
        obtain ⟨hr, -⟩ := parse_volume_descriptor_rest hp
        simp only [parseVDsFuel]
        rw [hp]
        dsimp only
        rw [if_neg hd, hr, ih _ hrest]
        have : (s.drop 2048).length % 2048 = s.length % 2048 := by
          rw [List.length_drop]
          omega
        rw [this]
      · exact absurd hstep (by simp)
    · rename_i h2048
      have hlen : s.length < 2048 := by
        have := (lengthAtLeast_iff s 2048).2
        by_contra hc
        exact h2048 (this (by omega))
      simp only [parseVDsFuel]
      rw [pvd_truncated s hlen, Nat.mod_eq_of_lt hlen]

/-- A descriptor list without a PRIMARY makes the type-keyed dictionary hold
no PRIMARY entry. -/
theorem findPrimary_none : ∀ ds : List ParsedVD,
    (∀ d ∈ ds, ∀ pd : PrimaryVolumeDescriptor, d ≠ .primary pd) →
    findPrimary ds = none := by
  have gen : ∀ (ds : List ParsedVD),
      (∀ d ∈ ds, ∀ pd : PrimaryVolumeDescriptor, d ≠ .primary pd) →
      ds.foldl (fun acc d => match d with
        | .primary pd => some pd | .plain _ => acc) (none : Option PrimaryVolumeDescriptor)
        = none := by
    intro ds
    induction ds with
    | nil => intro _; rfl
    | cons hd tl ih =>
      intro h
      cases hd with
      | primary pd => exact absurd rfl (h _ (by simp) pd)
      | plain v =>
        simp only [List.foldl_cons]
        exact ih (fun d hm pd => h d (by simp [hm]) pd)
  intro ds h
  exact gen ds h

/-- Claim C8: volume-descriptor scanning terminates.  A stream shorter than
one block raises the truncation `FormatError`; a stream whose first block is
a valid TERMINATOR stops immediately with no descriptors; a stream of valid
non-terminator blocks that reaches end of data before any TERMINATOR raises
the truncation `FormatError` on the short remainder instead of scanning
forever; and an image whose descriptor list holds no PRIMARY descriptor
before the terminator makes `parse_iso` raise the
primary-volume-descriptor-not-found `FormatError`. -/
theorem C8_theorem :
    (∀ s : List Nat, s.length < 2048 →
      parse_volume_descriptors s = .error (.format ("truncated volume descriptor: "
        ++ toString s.length ++ " bytes"))) ∧
    (∀ s : List Nat, match parse_volume_descriptor s with
      | .ok (d, _) => d.dtype = VDType.TERMINATOR → parse_volume_descriptors s = .ok []
      | .error _ => True) ∧
    (∀ s : List Nat, goodScan s = true →
      parse_volume_descriptors s = .error (.format ("truncated volume descriptor: "
        ++ toString (s.length % 2048) ++ " bytes"))) ∧
    (∀ (file : List Nat) (ds : List ParsedVD),
      parse_volume_descriptors (file.drop 32768) = .ok ds →
      (∀ d ∈ ds, ∀ pd : PrimaryVolumeDescriptor, d ≠ .primary pd) →
      parse_iso file = .error (.format "primary volume descriptor not found")) := by
  refine ⟨?_, ?_, ?_, ?_⟩
  · intro s h
    unfold parse_volume_descriptors
    rw [listLength_eq]
    simp only [parseVDsFuel]
    rw [pvd_truncated s h]
  · intro s
    cases hp : parse_volume_descriptor s with
    | error e => exact trivial
    | ok dr =>
      obtain ⟨d, rest⟩ := dr
      intro hterm
      unfold parse_volume_descriptors
      rw [listLength_eq]
      simp only [parseVDsFuel]
      rw [hp]
      dsimp only
      rw [if_pos hterm]
  · intro s h
    unfold parse_volume_descriptors
    rw [listLength_eq]
    exact parseVDs_no_term _ _ (by rw [← listLength_eq s]; exact h)
  · intro file ds h hnp
    unfold parse_iso
    rw [h]
    dsimp only
    rw [findPrimary_none ds hnp]

/-- Claim C8 witness: the empty stream raises the zero-byte truncation
error; a lone TERMINATOR block yields no descriptors; a lone valid
BOOT_RECORD block (no terminator) raises the truncation error; and a
32 KiB system area followed by only a TERMINATOR has no PRIMARY, so
`parse_iso` fails with the dedicated `FormatError`. -/
theorem C8_witness :
    parse_volume_descriptors [] = .error (.format "truncated volume descriptor: 0 bytes") ∧
    parse_volume_descriptors termBlock = .ok [] ∧
    parse_volume_descriptors bootBlock = .error (.format ("truncated volume descriptor: "
      ++ toString (bootBlock.length % 2048) ++ " bytes")) ∧
    parse_iso (zeros 32768 ++ termBlock)
      = .error (.format "primary volume descriptor not found") := by
  have hlen : (zeros 32768).length = 32768 := by
    rw [zeros]; exact List.length_replicate 32768 0
  have hterm : parse_volume_descriptors termBlock = .ok [] :=
    C8_theorem.2.1 termBlock (by decide)
  refine ⟨C8_theorem.1 [] (by decide), hterm, C8_theorem.2.2.1 bootBlock (by decide), ?_⟩
  refine C8_theorem.2.2.2 (zeros 32768 ++ termBlock) [] ?_ (by simp)
  rw [List.drop_left' hlen]
  exact hterm

/-- `setdefault` only ever appends. -/
theorem setdefault_extends (cache : List (List String × DirectoryRecord))
    (k : List String) (v : DirectoryRecord) : cache <+: setdefault cache k v := by
  unfold setdefault
  split
  · exact List.prefix_refl _
  · exact List.prefix_append _ _

/-- Folding a directory listing into the cache only ever appends. -/
theorem cacheEntries_extends (parent : List String) :
    ∀ (entries : List DirectoryRecord) (cache : List (List String × DirectoryRecord)),
    cache <+: cacheEntries cache parent entries := by
  intro entries
  induction entries with
  | nil => intro cache; exact List.prefix_refl _
  | cons e tl ih =>
    intro cache
    simp only [cacheEntries, List.foldl_cons]
    exact (setdefault_extends cache (joinName parent e.name) e).trans (ih _)

/-- The cache grows monotonically (append-only) across `lookup`, `get` and
`listdir`, at every fuel. -/
theorem walker_cache_mono : ∀ fuel : Nat,
    (∀ (w : TreeWalker) (p : List String), match lookupFuel fuel w p with
      | .ok (w2, _) => w.cache <+: w2.cache | .error _ => True) ∧
    (∀ (w : TreeWalker) (p : List String), match getFuel fuel w p with
      | .ok (w2, _) => w.cache <+: w2.cache | .error _ => True) ∧
    (∀ (w : TreeWalker) (p : List String), match listdirFuel fuel w p with
      | .ok (w2, _) => w.cache <+: w2.cache | .error _ => True) := by
  intro fuel
  induction fuel with
  | zero =>
    refine ⟨?_, ?_, ?_⟩ <;> intro w p <;> simp [lookupFuel, getFuel, listdirFuel]
  | succ fuel ih =>
    obtain ⟨ihL, ihG, ihD⟩ := ih
    refine ⟨?_, ?_, ?_⟩
    · intro w p
      cases hres : lookupFuel (fuel + 1) w p with
      | error e => exact trivial
      | ok pr =>
        obtain ⟨w2, rp⟩ := pr
        simp only [lookupFuel] at hres
        split at hres
        · exact absurd hres (by simp)
        · rename_i w3 hph
          split at hres
          · rename_i c hfind
            injection hres with hres
            injection hres with hres1 hres2
            subst hres1
            -- show w.cache <+: w3.cache from hph
            split at hph
            · rename_i hc
              injection hph with hph
              subst hph
              exact List.prefix_refl _
            · rename_i hc
              split at hph
              · exact absurd hph (by simp)
              · rename_i w1 parent heq1
                split at hph
                · exact absurd hph (by simp)
                · rename_i wd entries heq2
                  injection hph with hph
                  subst hph
                  have m1 := ihL w (pathParent p)
                  rw [heq1] at m1
                  have m2 := ihD w1 parent
                  rw [heq2] at m2
                  exact (m1.trans m2).trans (cacheEntries_extends parent entries wd.cache)
          · exact absurd hres (by simp)
    · intro w p
      cases hres : getFuel (fuel + 1) w p with
      | error e => exact trivial
      | ok pr =>
        obtain ⟨w2, d⟩ := pr
        simp only [getFuel] at hres
        split at hres
        · exact absurd hres (by simp)
        · rename_i w1 rp2 heq1
          split at hres
          · rename_i dd hget
            injection hres with hres
            injection hres with hres1 hres2
            subst hres1
            have m1 := ihL w p
            rw [heq1] at m1
            exact m1
          · exact absurd hres (by simp)
    · intro w p
      cases hres : listdirFuel (fuel + 1) w p with
      | error e => exact trivial
      | ok pr =>
        obtain ⟨w2, ds⟩ := pr
        simp only [listdirFuel] at hres
        split at hres
        · exact absurd hres (by simp)
        · rename_i w1 d heq1
          split at hres
          · -- is_directory branch
            split at hres
            · exact absurd hres (by simp)
            · split at hres
              · exact absurd hres (by simp)
              · rename_i ds2 hpd
                injection hres with hres
                injection hres with hres1 hres2
                subst hres1
                have m1 := ihG w p
                rw [heq1] at m1
                exact m1
          · exact absurd hres (by simp)

/-- The cache grows monotonically across `read` as well. -/
theorem read_cache_mono : ∀ (fuel : Nat) (w : TreeWalker) (p : List String),
    match readFuel fuel w p with
    | .ok (w2, _) => w.cache <+: w2.cache
    | .error _ => True := by
  intro fuel w p
  cases fuel with
  | zero => simp [readFuel]
  | succ fuel =>
    cases hres : readFuel (fuel + 1) w p with
    | error e => exact trivial
    | ok pr =>
      obtain ⟨w2, bs⟩ := pr
      simp only [readFuel] at hres
      split at hres
      · exact absurd hres (by simp)
      · rename_i w1 d heq1
        split at hres
        · exact absurd hres (by simp)
        · split at hres
          · exact absurd hres (by simp)
          · split at hres
            · exact absurd hres (by simp)
            · rename_i bytes hbytes
              injection hres with hres
              injection hres with hres1 hres2
              subst hres1
              have m1 := (walker_cache_mono fuel).2.1 w p
              rw [heq1] at m1
              exact m1

/-- A freshly opened session has an empty trace and a cache holding exactly
the root path. -/
theorem parse_iso_seed : ∀ file : List Nat,
    match parse_iso file with
    | .ok w => w.cache.map Prod.fst = [[]] ∧ w.trace = []
    | .error _ => True := by
  intro file
  cases hres : parse_iso file with
  | error e => exact trivial
  | ok w =>
    simp only [parse_iso] at hres
    split at hres
    · exact absurd hres (by simp)
    · rename_i ds hds
      split at hres
      · exact absurd hres (by simp)
      · rename_i primary hprim
        split at hres
        · exact absurd hres (by simp)
        · rename_i root hroot
          injection hres with hres
          subst hres
          exact ⟨rfl, rfl⟩

/-- When the requested path is already a cache key, `lookup` returns it
unchanged: no parent resolution, no directory read, no cache growth. -/
theorem lookup_cached : ∀ (fuel : Nat) (w : TreeWalker) (p : List String),
    cacheHas w.cache p = true → lookupFuel (fuel + 1) w p = .ok (w, p) := by
  intro fuel w p hc
  have halt : alt_paths p = p :: (upperPath p ::
      (if (pathName p).toList.contains ';' then [] else [addV1 p, upperPath (addV1 p)])) := by
    simp [alt_paths]
  simp only [lookupFuel, hc, ite_true]
  rw [halt, List.find?_cons_of_pos _ hc]

/-- When the requested path is already a cache key, `get` returns the cached
record without touching the image. -/
theorem get_cached : ∀ (fuel : Nat) (w : TreeWalker) (p : List String),
    cacheHas w.cache p = true →
    getFuel (fuel + 2) w p = (match cacheGet w.cache p with
      | some d => .ok (w, d)
      | none => .error .keyError) := by
  intro fuel w p hc
  show getFuel (fuel + 1 + 1) w p = _
  simp only [getFuel]
  rw [lookup_cached fuel w p hc]

/-- Claim C2: looking up `/foo` against an image whose root directory has no
matching entry raises a file-not-found error, but its message names the last
candidate tried, `/FOO;1` (the upper-cased, version-suffixed variant), not
the originally requested `/foo`: the `for` loop of `lookup` rebinds the
local name `path` before the message is built. -/
theorem C2_theorem :
    TreeWalker.lookup demoWalker ["foo"]
      = .error (.fileNotFound "no such file or directory: /FOO;1") ∧
    "no such file or directory: /FOO;1"
      ≠ "no such file or directory: " ++ pathStr ["foo"] := by decide

/-- Claim C3: whenever `lookup` succeeds, the path it returns is the first
entry of `alt_paths` present in the cache (`List.find?` returns the first
match); the candidate list is exactly the requested form, the upper-cased
form, and - only when the final name has no `;` version marker - the exact
and upper-cased forms with `;1` appended, in that order; and in the demo
session `lookup` of `/boot/grub/grub.cfg` resolves to the physical
`/BOOT/GRUB/GRUB.CFG;1` whose record carries the identifier GRUB.CFG;1. -/
theorem C3_theorem :
    (∀ (fuel : Nat) (w : TreeWalker) (p : List String),
      match lookupFuel (fuel + 1) w p with
      | .ok (w3, rp) => (alt_paths p).find? (fun c => cacheHas w3.cache c) = some rp
      | .error _ => True) ∧
    alt_paths ["boot", "grub", "grub.cfg"] =
      [["boot", "grub", "grub.cfg"], ["BOOT", "GRUB", "GRUB.CFG"],
       ["boot", "grub", "grub.cfg;1"], ["BOOT", "GRUB", "GRUB.CFG;1"]] ∧
    alt_paths ["boot", "grub", "grub.cfg;1"] =
      [["boot", "grub", "grub.cfg;1"], ["BOOT", "GRUB", "GRUB.CFG;1"]] ∧
    Except.map (fun x => x.2) (TreeWalker.lookup demoWalker ["boot", "grub", "grub.cfg"])
      = .ok ["BOOT", "GRUB", "GRUB.CFG;1"] ∧
    Except.map (fun x => x.2.identifier) (TreeWalker.get demoWalker ["boot", "grub", "grub.cfg"])
      = .ok (ascii "GRUB.CFG;1") := by
  refine ⟨?_, by decide, by decide, by decide, by decide⟩
  intro fuel w p
  cases hres : lookupFuel (fuel + 1) w p with
  | error e => exact trivial
  | ok pr =>
    obtain ⟨w3, rp⟩ := pr
    simp only [lookupFuel] at hres
    split at hres
    · exact absurd hres (by simp)
    · rename_i w4 hph
      split at hres
      · rename_i c hfind
        injection hres with hres
        injection hres with hres1 hres2
        subst hres1
        subst hres2
        exact hfind
      · exact absurd hres (by simp)

/-- Claim C7: when a path resolves to a record, `read` raises
`IsADirectoryError` (not a regular file) when the is-directory flag is set;
when that flag is clear but the not-final flag is set it raises the
multiple-extents-unsupported error; with the not-final flag set it never
returns bytes at all; and `listdir` raises `NotADirectoryError` when the
is-directory flag is clear.  The is-directory check precedes the extent
check, so a record carrying both flags gets the is-a-directory message. -/
theorem C7_theorem : ∀ (fuel : Nat) (w : TreeWalker) (p : List String)
    (d : DirectoryRecord), getRecord fuel w p = some d →
    (d.is_directory = true → readFuel (fuel + 1) w p
      = .error (.isADirectory ("not a regular file: " ++ pathStr p))) ∧
    (d.is_directory = false → d.has_extents = true → readFuel (fuel + 1) w p
      = .error (.isADirectory
          (pathStr p ++ " has multiple extents which is not supported"))) ∧
    (d.has_extents = true → ∀ (w2 : TreeWalker) (bs : List Nat),
      readFuel (fuel + 1) w p ≠ .ok (w2, bs)) ∧
    (d.is_directory = false → listdirFuel (fuel + 1) w p
      = .error (.notADirectory ("not a directory: " ++ pathStr p))) := by
  intro fuel w p d hd
  unfold getRecord at hd
  split at hd
  · rename_i w1 d0 hg
    injection hd with hd
    subst hd
    have hread : ∀ Q : Except PError (TreeWalker × List Nat) → Prop,
        Q (if d0.is_directory then
            .error (.isADirectory ("not a regular file: " ++ pathStr p))
          else if d0.has_extents then
            .error (.isADirectory (pathStr p ++ " has multiple extents which is not supported"))
          else
            (let ro := d0.read_from w1.img
             let w2 := { w1 with trace := w1.trace ++ ro.2 }
             match ro.1 with
             | .error e => .error e
             | .ok bytes => .ok (w2, bytes))) →
        Q (readFuel (fuel + 1) w p) := by
      intro Q hq
      simp only [readFuel, hg]
      exact hq
    refine ⟨?_, ?_, ?_, ?_⟩
    · intro hdir
      apply hread (fun r => r = _)
      rw [if_pos hdir]
    · intro hnd hext
      apply hread (fun r => r = _)
      rw [if_neg (by simp [hnd]), if_pos hext]
    · intro hext w2 bs
      apply hread (fun r => r ≠ _)
      by_cases hdir : d0.is_directory
      · rw [if_pos hdir]; simp
      · rw [if_neg hdir, if_pos hext]; simp
    · intro hnd
      simp only [listdirFuel, hg]
      rw [if_neg (by simp [hnd])]
  · exact absurd hd (by simp)

/-- Claim C7 witness: in the demo session, reading the directory `/boot`
fails as a directory, reading the multi-extent `/boot/grub/big` fails with
the extents message, and listing the plain file `/boot/grub/grub.cfg` fails
as not a directory. -/
theorem C7_witness :
    readFuel 20 demoWalker ["boot"]
      = .error (.isADirectory "not a regular file: /boot") ∧
    readFuel 28 demoWalker ["boot", "grub", "big"]
      = .error (.isADirectory "/boot/grub/big has multiple extents which is not supported") ∧
    listdirFuel 28 demoWalker ["boot", "grub", "grub.cfg"]
      = .error (.notADirectory "not a directory: /boot/grub/grub.cfg") :=
  ⟨(C7_theorem 19 demoWalker ["boot"] demoBootRec (by decide)).1 (by decide),
   (C7_theorem 27 demoWalker ["boot", "grub", "big"] demoBigRec
      (by decide)).2.1 (by decide) (by decide),
   (C7_theorem 27 demoWalker ["boot", "grub", "grub.cfg"] grubCfgRec
      (by decide)).2.2.2 (by decide)⟩

/-- Claim C9, amended: the session cache is seeded with exactly the root
path; every walker operation grows the cache monotonically (entries are
only appended, never overwritten or evicted); when the requested path is
itself already a cache key, resolving it performs no directory read and no
state change at all and `get` returns the identical cached record; and in
the demo session repeated resolution of `/boot` keeps returning the
identical cached record.  (Re-resolving a request form that differs from
the cached physical form does re-read the parent extent: see the
counterexample.) -/
theorem C9_theorem :
    (∀ file : List Nat, match parse_iso file with
      | .ok w => w.cache.map Prod.fst = [[]] ∧ w.trace = []
      | .error _ => True) ∧
    (∀ (fuel : Nat) (w : TreeWalker) (p : List String),
      (match lookupFuel fuel w p with
        | .ok (w2, _) => w.cache <+: w2.cache | .error _ => True) ∧
      (match getFuel fuel w p with
        | .ok (w2, _) => w.cache <+: w2.cache | .error _ => True) ∧
      (match listdirFuel fuel w p with
        | .ok (w2, _) => w.cache <+: w2.cache | .error _ => True) ∧
      (match readFuel fuel w p with
        | .ok (w2, _) => w.cache <+: w2.cache | .error _ => True)) ∧
    (∀ (fuel : Nat) (w : TreeWalker) (p : List String), cacheHas w.cache p = true →
      lookupFuel (fuel + 1) w p = .ok (w, p) ∧
      getFuel (fuel + 2) w p = (match cacheGet w.cache p with
        | some d => .ok (w, d)
        | none => .error .keyError)) ∧
    (Except.map (fun x => x.2) (TreeWalker.get demoWalker1 ["boot"])
      = Except.map (fun x => x.2) (TreeWalker.get demoWalker ["boot"]) ∧
     Except.map (fun x => x.2) (TreeWalker.get demoWalker2 ["boot"])
      = Except.map (fun x => x.2) (TreeWalker.get demoWalker ["boot"])) := by
  refine ⟨parse_iso_seed, ?_, ?_, by decide, by decide⟩
  · intro fuel w p
    exact ⟨(walker_cache_mono fuel).1 w p, (walker_cache_mono fuel).2.1 w p,
      (walker_cache_mono fuel).2.2 w p, read_cache_mono fuel w p⟩
  · intro fuel w p hc
    exact ⟨lookup_cached fuel w p hc, get_cached fuel w p hc⟩

/-- Claim C9 counterexample: `/boot` (physical name BOOT) resolves twice to
the same path, but the second resolution performs an additional seek+read of
the root directory extent - the trace doubles - because only the physical
key `/BOOT` was cached, so resolution of an already-resolved path is not
free of directory-extent reads as claimed. -/
theorem C9_counterexample :
    Except.map (fun x => x.2) (TreeWalker.lookup demoWalker ["boot"]) = .ok ["BOOT"] ∧
    demoWalker1.trace = [IOOp.seek 0, IOOp.read 107] ∧
    Except.map (fun x => x.2) (TreeWalker.lookup demoWalker1 ["boot"]) = .ok ["BOOT"] ∧
    demoWalker2.trace
      = [IOOp.seek 0, IOOp.read 107, IOOp.seek 0, IOOp.read 107] := by decide

/-- Claim C9 witness: the root path, present in the cache from the seed, is
resolved with no state change, and `get` returns the seeded root record. -/
theorem C9_witness :
    lookupFuel 1 demoWalker [] = .ok (demoWalker, []) ∧
    getFuel 2 demoWalker [] = .ok (demoWalker, demoRoot) := by
  have h := C9_theorem.2.2.1 0 demoWalker [] (by decide)
  exact ⟨h.1, h.2⟩


end ParseIso
